import Mathlib

/-!
Verification of the alertmanager-discord relay against its specification.

The Go program (main.go) is shallowly embedded below.  Pure helpers
(getSeverityColor, valueConv, the label partitioning loop, the embed
batching loop) are transliterated directly.  External Go standard-library
services that the program calls (RFC3339 parsing, float parsing) are
parameters of the embedding, collected in GoEnv, since the claims never
depend on which concrete strings parse.  Go maps are modelled as
association lists whose order stands for the map iteration order; the Go
map invariant (distinct keys) appears as a Nodup hypothesis where a proof
needs it.  Times are modelled at second resolution as an absolute instant
plus an attached location name; the textual output of Format/Duration
rendering is abstracted into injective tag functions because no claim
inspects those characters.  A Go panic is modelled as Option.none
propagating outward: time.LoadLocation returns none for an unknown zone
name (the program discards the error), and Time.In applied to that nil
location panics, aborting the handler.  The HTTP handler never writes a
status or body, so a normal return is modelled as the implicit
200-with-empty-body response; a panicking run produces no response.
-/

/-! ## Data model (main.go struct and const declarations) -/

-- Discord color values (main.go const block).
def ColorRed : Nat := 0x992D22

def ColorOrange : Nat := 0xF0B816

def ColorGreen : Nat := 0x2ECC71

def ColorGrey : Nat := 0x95A5A6

def ColorBlue : Nat := 0x58b9ff

def MaxDiscordEmbed : Nat := 10

/-- The anonymous annotations struct of alertManAlert: description and summary. -/
structure AlertAnnotations where
  description : String
  summary : String
deriving DecidableEq

/-- One alert record of the inbound payload (Go struct alertManAlert).
Labels is a Go map modelled as an association list; the list order stands
for the map iteration order. -/
structure alertManAlert where
  annotations : AlertAnnotations
  endsAt : String
  generatorURL : String
  labels : List (String × String)
  startsAt : String
  status : String
deriving DecidableEq

/-- The anonymous summary-only struct used for commonAnnotations. -/
structure CommonAnnotations where
  summary : String
deriving DecidableEq

/-- The anonymous alertname-only struct used for groupLabels and commonLabels. -/
structure GroupLabels where
  alertname : String
deriving DecidableEq

/-- The inbound alert group (Go struct alertManOut). -/
structure alertManOut where
  alerts : List alertManAlert
  commonAnnotations : CommonAnnotations
  commonLabels : GroupLabels
  externalURL : String
  groupKey : String
  groupLabels : GroupLabels
  receiver : String
  status : String
  version : String
deriving DecidableEq

/-- Go struct discordEmbedField. -/
structure discordEmbedField where
  name : String
  value : String
deriving DecidableEq

/-- Go struct discordEmbed: one rendered unit. -/
structure discordEmbed where
  title : String
  description : String
  color : Nat
  fields : List discordEmbedField
deriving DecidableEq

/-- Go struct discordOut: one outbound message (header content plus embeds). -/
structure discordOut where
  content : String
  embeds : List discordEmbed
deriving DecidableEq

/-! ## Model of the Go standard-library services the program uses -/

/-- Model of Go time.Time at second resolution: the absolute instant (seconds
since the epoch, with the zero value placed at 0) plus the attached location
name.  Comparisons (Time.After) and subtraction (Time.Sub) depend only on the
instant; Time.In replaces only the location. -/
structure GoTime where
  sec : Int
  locName : String
deriving DecidableEq

/-- The zero value of time.Time (produced by a failed time.Parse).  Its
location is UTC. -/
def zeroGoTime : GoTime := { sec := 0, locName := "UTC" }

/-- Model of time.LoadLocation per the Go documentation: the empty name or
"UTC" gives UTC, "Local" gives the local zone, any other name is looked up in
the installed zone database (the db parameter); an unknown name yields an
error, modelled as none.  main.go discards that error, so the location it
then passes to Time.In is nil. -/
def loadLocation (db : List String) (name : String) : Option String :=
  if name = "" ∨ name = "UTC" then some "UTC"
  else if name = "Local" then some "Local"
  else if name ∈ db then some name
  else none

/-- Model of Time.In: panics (none) when the location pointer is nil,
otherwise attaches the location without changing the instant. -/
def timeIn (t : GoTime) (loc : Option String) : Option GoTime :=
  match loc with
  | none => none
  | some l => some { t with locName := l }

/-- Abstract rendering of t.Format(time.DateTime): the output depends on the
instant and the attached location; its exact characters are not inspected by
any claim and are abstracted into a tagged string. -/
def goFormatDateTime (t : GoTime) : String :=
  "go-datetime<" ++ toString t.sec ++ "@" ++ t.locName ++ ">"

/-- Abstract rendering of time.Duration.String at second resolution; the
exact characters are not inspected by any claim. -/
def goDurationString (sec : Int) : String :=
  "go-duration<" ++ toString sec ++ "s>"

/-- Abstract rendering of fmt.Sprintf with a two-decimal float verb; the
exact characters are not inspected by any claim. -/
def goSprintfFixed2 (v : Rat) : String :=
  "go-fixed2<" ++ toString v ++ ">"

/-- Go int64(v) truncation of a float toward zero, on the rational model. -/
def goTruncInt (v : Rat) : Int :=
  Int.tdiv v.num (Int.ofNat v.den)

/-- External Go standard-library services used by main.go, abstracted as
parameters of the embedding: strict RFC3339 parsing (time.Parse, none models
the error case), float parsing (strconv.ParseFloat, none models the error
case), the installed timezone database, and the TZ environment value read at
rendering time. -/
structure GoEnv where
  parseRFC3339 : String → Option GoTime
  parseFloat : String → Option Rat
  tzdb : List String
  tz : String

/-! ## Value Formatter (valueConv) and Severity Classifier (getSeverityColor) -/

/-- Transliteration of valueConv: duration renders the value as seconds via
Duration.String, timestamp renders time.Unix(int64(v), 0) (a local-zone time)
via Format(time.DateTime), updown maps exactly 1.0 to "up" and everything
else to "down", and any other tag falls through to a two-decimal rendering. -/
def valueConv (v : Rat) (conv : String) : String :=
  if conv = "duration" then goDurationString (goTruncInt v)
  else if conv = "timestamp" then goFormatDateTime { sec := goTruncInt v, locName := "Local" }
  else if conv = "updown" then (if v = 1 then "up" else "down")
  else goSprintfFixed2 v

/-- Transliteration of getSeverityColor: the four recognized severities map
to their fixed colors and every other string falls to the default red. -/
def getSeverityColor (severity : String) : Nat :=
  if severity = "debug" then ColorGrey
  else if severity = "info" then ColorBlue
  else if severity = "warning" then ColorOrange
  else if severity = "critical" then ColorRed
  else ColorRed

/-! ## Alert Renderer (the per-alert loop body of sendWebhook) -/

/-- Model of strings.HasPrefix on the character list, written so that
proofs can evaluate it. -/
def goStartsWith (s pat : String) : Bool :=
  List.isPrefixOf pat.data s.data

/-- Model of strings.ToUpper on the character list (uppercasing each
character; the inputs the program feeds it are ASCII status words). -/
def goToUpper (s : String) : String :=
  String.mk (s.data.map Char.toUpper)

/-- The display status computed by the switch in sendWebhook: a firing alert
takes its severity label as display status when that label exists, a resolved
alert is forced to the literal "normal", and any other status stays as the
raw status. -/
def displayStatus (alert : alertManAlert) : String :=
  if alert.status = "firing" then
    match List.lookup "severity" alert.labels with
    | some s => s
    | none => alert.status
  else if alert.status = "resolved" then "normal"
  else alert.status

/-- The embed color computed by the same switch: firing classifies the
display status through getSeverityColor, resolved is forced to green, and any
other status keeps the grey initializer. -/
def statusColor (alert : alertManAlert) : Nat :=
  if alert.status = "firing" then getSeverityColor (displayStatus alert)
  else if alert.status = "resolved" then ColorGreen
  else ColorGrey

/-- Accumulator of the label iteration loop: the rendered label lines, the
collected metrics value (initially 0.0) and the collected conversion tag
(initially the empty string). -/
structure LabelsAcc where
  lines : List String
  metricsValue : Rat
  metricsConv : String
deriving DecidableEq

/-- One iteration of the label loop in sendWebhook: a key with the
"metrics_" marker is diverted (metrics_value is parsed as a float with the
parse error discarded, metrics_conv is captured as the conversion tag, any
other metrics_ key is skipped), the key exactly "value" is skipped, and every
remaining entry is rendered as a bulleted line. -/
def labelsStep (env : GoEnv) (acc : LabelsAcc) (kv : String × String) : LabelsAcc :=
  if goStartsWith kv.1 "metrics_" then
    if kv.1 = "metrics_value" then
      { acc with metricsValue := (env.parseFloat kv.2).getD 0 }
    else if kv.1 = "metrics_conv" then
      { acc with metricsConv := kv.2 }
    else acc
  else if kv.1 = "value" then acc
  else { acc with lines := acc.lines ++ [": - **_" ++ kv.1 ++ ":_** " ++ kv.2] }

/-- The whole label loop, run over the map iteration order. -/
def labelsFold (env : GoEnv) (ls : List (String × String)) : LabelsAcc :=
  ls.foldl (labelsStep env) { lines := [], metricsValue := 0, metricsConv := "" }

/-- The label lines actually placed in the body: after the loop, a display
status other than "normal" appends one extra bulleted line rendering the
collected auxiliary metric through valueConv. -/
def labelLines (env : GoEnv) (status : String) (ls : List (String × String)) : List String :=
  let acc := labelsFold env ls
  if status ≠ "normal" then
    acc.lines ++ [": - **_value:_** " ++ valueConv acc.metricsValue acc.metricsConv]
  else acc.lines

/-- The start or end time as the renderer resolves it: strict RFC3339 parse
with the error discarded (the zero time on failure), then Time.In with the
location loaded from the TZ environment value (none, i.e. panic, when that
location failed to load). -/
def resolvedTime (env : GoEnv) (s : String) : Option GoTime :=
  timeIn ((env.parseRFC3339 s).getD zeroGoTime) (loadLocation env.tzdb env.tz)

/-- The loop body of sendWebhook once both timestamps resolved: builds the
title, the label lines, the bulleted description lines, and assembles the
body sections in the fixed source order (event time, labels block, separator,
description block, then the conditional duration block). -/
def renderCore (env : GoEnv) (alert : alertManAlert) (startAt endAt : GoTime) : discordEmbed :=
  let status := displayStatus alert
  let labels := labelLines env status alert.labels
  let descLines := (alert.annotations.description.splitOn "\n").map (fun v => ": - " ++ v)
  let eventTime := if endAt.sec > startAt.sec then endAt else startAt
  let d := ["**⏰ Event Time:** " ++ goFormatDateTime eventTime]
  let d := d ++ ["**🏷️ Alert labels:**\n" ++ String.intercalate "\n" labels]
  let d := d ++ ["------"]
  let d := d ++ ["**📖 Description:**\n" ++ String.intercalate "\n" descLines]
  let d := if endAt.sec > startAt.sec then
      (((d ++ ["------"])
        ++ ["**⏲️ Duration:** " ++ goDurationString (endAt.sec - startAt.sec)])
        ++ [": - **_Start:_** " ++ goFormatDateTime startAt])
        ++ [": - **_End:_** " ++ goFormatDateTime endAt]
    else d
  { title := "[" ++ goToUpper status ++ "] " ++ alert.annotations.summary
    description := String.intercalate "\n" d
    color := statusColor alert
    fields := [] }

/-- Rendering one alert: none models the panic of Time.In on a nil location
(the only way the loop body can abort). -/
def renderAlert (env : GoEnv) (alert : alertManAlert) : Option discordEmbed :=
  match resolvedTime env alert.startsAt, resolvedTime env alert.endsAt with
  | some startAt, some endAt => some (renderCore env alert startAt endAt)
  | _, _ => none

/-- The rendering loop over all alerts of the group; a panic in any
iteration aborts sendWebhook before anything is posted. -/
def renderAll (env : GoEnv) : List alertManAlert → Option (List discordEmbed)
  | [] => some []
  | a :: rest =>
    match renderAlert env a, renderAll env rest with
    | some e, some es => some (e :: es)
    | _, _ => none

/-! ## Batcher and Delivery Client -/

/-- The header line shared by every outbound message of one group. -/
def groupHeader (amo : alertManOut) : String :=
  "=== Alert: " ++ amo.receiver ++ " - " ++ amo.groupLabels.alertname ++ " ==="

/-- The bulk-send loop of sendWebhook: successive contiguous slices of at
most MaxDiscordEmbed embeds, in the original order. -/
def bulkChunks {α : Type} : List α → List (List α)
  | [] => []
  | x :: xs => (x :: xs).take MaxDiscordEmbed :: bulkChunks ((x :: xs).drop MaxDiscordEmbed)
termination_by l => l.length
decreasing_by
  simp [MaxDiscordEmbed]
  omega

/-- The batching decision of sendWebhook: more than MaxDiscordEmbed embeds
enter the bulk-send loop, otherwise the whole list (possibly empty) is sent
as a single message. -/
def batchEmbeds (embeds : List discordEmbed) : List (List discordEmbed) :=
  if embeds.length > MaxDiscordEmbed then bulkChunks embeds else [embeds]

/-- Outcome of one http.Post as the Delivery Client sees it: a
transport-level error, or a response with a status code and body. -/
inductive PostResult where
  | transportError (err : String)
  | response (statusCode : Nat) (body : String)
deriving DecidableEq

/-- Observable effects of one fireMessageOut call: the POST attempts made
(always exactly one: the function never retries) and the log lines written.
The function has no error outcome to propagate to its caller. -/
structure FireOut where
  posted : List discordOut
  logs : List String
deriving DecidableEq

/-- Transliteration of fireMessageOut: one POST; a transport error is logged
and the function returns; a status at or above http.StatusBadRequest (400)
logs the status and response body; otherwise nothing further happens. -/
def fireMessageOut (post : discordOut → PostResult) (msg : discordOut) : FireOut :=
  { posted := [msg]
    logs :=
      match post msg with
      | PostResult.transportError e => ["Send discord error -: " ++ e]
      | PostResult.response code body =>
        if 400 ≤ code then ["Discord server return error -: " ++ toString code ++ " " ++ body]
        else [] }

/-- Observable effects of one sendWebhook call: the outbound messages it
built, the POST attempts actually made (in order), and the log lines. -/
structure SendResult where
  messages : List discordOut
  posted : List discordOut
  logs : List String
deriving DecidableEq

/-- Transliteration of sendWebhook: render every alert (none propagates the
rendering panic, in which case nothing is posted), batch the embeds under the
shared group header, and fire every resulting message in order. -/
def sendWebhook (env : GoEnv) (post : discordOut → PostResult) (amo : alertManOut) :
    Option SendResult :=
  match renderAll env amo.alerts with
  | none => none
  | some embeds =>
    let msgs := (batchEmbeds embeds).map
      (fun c => ({ content := groupHeader amo, embeds := c } : discordOut))
    let fires := msgs.map (fireMessageOut post)
    some { messages := msgs
           posted := (fires.map FireOut.posted).flatten
           logs := (fires.map FireOut.logs).flatten }

/-! ## Ingress Handler (the closure in main) and sendRawPromAlertWarn -/

/-- The fixed explanatory text of the misconfiguration warning. -/
def rawPromWarnBadString : String :=
  "This program is suppose to be fed by alertmanager." ++ "\n" ++
  "It is not a replacement for alertmanager, it is a " ++ "\n" ++
  "webhook target for it. Please read the README.md  " ++ "\n" ++
  "for guidance on how to configure it for alertmanager" ++ "\n" ++
  "or https://prometheus.io/docs/alerting/latest/configuration/#webhook_config"

/-- The fixed misconfiguration warning message posted by
sendRawPromAlertWarn. -/
def rawPromWarnMessage : discordOut :=
  { content := ""
    embeds := [{ title := "You have misconfigured this software"
                 description := rawPromWarnBadString
                 color := ColorGrey
                 fields := [] }] }

/-- The log lines written by sendRawPromAlertWarn. -/
def rawPromWarnLogs : List String :=
  ["/!\\ -- You have misconfigured this software -- /!\\",
   "--- --                                      -- ---",
   rawPromWarnBadString]

/-- The log line of the unparseable-payload path: a body longer than 1024
units is cut to its first 1023 units with an ellipsis marker appended,
otherwise the whole body is logged.  Go bytes are modelled as characters
(every body a claim touches is ASCII). -/
def unpackFailLog (b : String) : String :=
  if b.length > 1024 then
    "Failed to unpack inbound alert request - " ++ b.take 1023 ++ "..."
  else
    "Failed to unpack inbound alert request - " ++ b

/-- Observable outcome of one handler run.  The Go handler never writes to
the ResponseWriter, so a normal return produces the implicit HTTP 200 with an
empty body; a panicking run (none) produces no response at all (net/http
recovers the panic and closes the connection without writing a status). -/
structure HandlerResult where
  response : Option (Nat × String)
  posted : List discordOut
  logs : List String
deriving DecidableEq

/-- Transliteration of the handler closure in main, after the body has been
read: json.Unmarshal is abstracted as the decode parameter and the foreign
shape heuristic isRawPromAlert (defined outside this file) as the isRaw
parameter.  Decode success runs sendWebhook; decode failure recognized as the
foreign shape posts the fixed warning; any other decode failure only logs an
excerpt of the body. -/
def handleRequest (env : GoEnv) (decode : String → Option alertManOut)
    (isRaw : String → Bool) (post : discordOut → PostResult) (b : String) : HandlerResult :=
  match decode b with
  | some amo =>
    match sendWebhook env post amo with
    | some r => { response := some (200, ""), posted := r.posted, logs := r.logs }
    | none => { response := none, posted := [], logs := [] }
  | none =>
    if isRaw b then
      { response := some (200, ""), posted := [rawPromWarnMessage], logs := rawPromWarnLogs }
    else
      { response := some (200, ""), posted := [], logs := [unpackFailLog b] }

/-! ## Spec-shaped helper definitions used to state the claims -/

/-- Whether a label entry is rendered as an ordinary label line: its key
carries neither the "metrics_" marker nor is it exactly "value". -/
def ordinaryLabel (kv : String × String) : Bool :=
  !(goStartsWith kv.1 "metrics_") && !(kv.1 == "value")

/-- The bulleted line rendered for one ordinary label entry. -/
def labelLineOf (kv : String × String) : String :=
  ": - **_" ++ kv.1 ++ ":_** " ++ kv.2

/-- The event time line of the body. -/
def eventTimeLine (t : GoTime) : String :=
  "**⏰ Event Time:** " ++ goFormatDateTime t

/-- The labels block of the body. -/
def labelsBlockOf (env : GoEnv) (alert : alertManAlert) : String :=
  "**🏷️ Alert labels:**\n" ++
    String.intercalate "\n" (labelLines env (displayStatus alert) alert.labels)

/-- The description block of the body. -/
def descBlockOf (alert : alertManAlert) : String :=
  "**📖 Description:**\n" ++
    String.intercalate "\n"
      ((alert.annotations.description.splitOn "\n").map (fun v => ": - " ++ v))

/-- The duration line of the conditional trailing block. -/
def durationLineOf (startAt endAt : GoTime) : String :=
  "**⏲️ Duration:** " ++ goDurationString (endAt.sec - startAt.sec)

/-- The explicit start timestamp line of the conditional trailing block. -/
def startLineOf (t : GoTime) : String :=
  ": - **_Start:_** " ++ goFormatDateTime t

/-- The explicit end timestamp line of the conditional trailing block. -/
def endLineOf (t : GoTime) : String :=
  ": - **_End:_** " ++ goFormatDateTime t

/-- The body assembly order as the specification states it: event time line
(using the later of start and end), labels block, separator, unconditional
description block, and only when end is chronologically after start a
further separator, duration line and explicit start and end lines.  This
spec-shaped definition is compared against the transliterated renderCore. -/
def bodyAssemblySpec (env : GoEnv) (alert : alertManAlert) (startAt endAt : GoTime) : String :=
  String.intercalate "\n"
    ([eventTimeLine (if endAt.sec > startAt.sec then endAt else startAt),
      labelsBlockOf env alert, "------", descBlockOf alert] ++
     (if endAt.sec > startAt.sec then
        ["------", durationLineOf startAt endAt, startLineOf startAt, endLineOf endAt]
      else []))

/-! ## Concrete fixtures used by witnesses and counterexamples -/

/-- A concrete environment: nothing parses, the zone database is empty, TZ
is unset (the empty string). -/
def testEnv : GoEnv :=
  { parseRFC3339 := fun _ => none, parseFloat := fun _ => none, tzdb := [], tz := "" }

/-- A concrete environment whose TZ names a zone absent from the database. -/
def badTzEnv : GoEnv :=
  { parseRFC3339 := fun _ => none, parseFloat := fun _ => none, tzdb := [], tz := "Mars/Phobos" }

/-- A concrete resolved alert that still carries a severity label. -/
def alertC2 : alertManAlert :=
  { annotations := { description := "disk ok\nall clear", summary := "Disk" }
    endsAt := ""
    generatorURL := ""
    labels := [("severity", "critical"), ("instance", "db1")]
    startsAt := "not-a-time"
    status := "resolved" }

/-- A concrete firing alert whose severity label is exactly "normal". -/
def alertC10 : alertManAlert :=
  { annotations := { description := "cpu fine", summary := "CPU" }
    endsAt := ""
    generatorURL := ""
    labels := [("severity", "normal"), ("instance", "db1")]
    startsAt := ""
    status := "firing" }

/-- A default embed used only to extract the value under a some. -/
def defaultEmbed : discordEmbed :=
  { title := "", description := "", color := 0, fields := [] }

/-- The embed rendered from alertC2 under testEnv. -/
def embedC2 : discordEmbed := (renderAlert testEnv alertC2).getD defaultEmbed

/-- The embed rendered from alertC10 under testEnv. -/
def embedC10 : discordEmbed := (renderAlert testEnv alertC10).getD defaultEmbed

/-- A concrete alert group holding alertC2. -/
def exGroup : alertManOut :=
  { alerts := [alertC2]
    commonAnnotations := { summary := "" }
    commonLabels := { alertname := "DiskAlert" }
    externalURL := ""
    groupKey := ""
    groupLabels := { alertname := "DiskAlert" }
    receiver := "team"
    status := "resolved"
    version := "4" }

/-- A delivery oracle that always succeeds with status 204. -/
def postOkFn : discordOut → PostResult := fun _ => PostResult.response 204 ""

/-- A delivery oracle that always fails at the transport level. -/
def postFailFn : discordOut → PostResult := fun _ => PostResult.transportError "refused"

/-- A decoder on which every body fails. -/
def decodeNoneFn : String → Option alertManOut := fun _ => none

/-- A decoder on which every body decodes to exGroup. -/
def decodeExGroupFn : String → Option alertManOut := fun _ => some exGroup

/-- A foreign-shape heuristic that recognizes nothing. -/
def isRawFalseFn : String → Bool := fun _ => false

/-- A default send result used only to extract the value under a some. -/
def emptySendResult : SendResult := { messages := [], posted := [], logs := [] }

/-- The send result of delivering exGroup under testEnv. -/
def sendResC1 : SendResult := (sendWebhook testEnv postOkFn exGroup).getD emptySendResult

/-- A concrete outbound message. -/
def msgW : discordOut := { content := "m", embeds := [] }

/-- A concrete request body of 1025 units. -/
def bodyLong : String := String.mk (List.replicate 1025 'a')

/-- The first 1023 units of bodyLong. -/
def excerpt1023 : String := String.mk (List.replicate 1023 'a')

/-- A concrete label map exercising every branch of the label loop. -/
def labelsC4 : List (String × String) :=
  [("metrics_value", "12.5"), ("metrics_conv", "updown"), ("value", "9"), ("instance", "db1")]

/-! ## Helper lemmas -/

theorem bulkChunks_flatten {α : Type} (l : List α) : (bulkChunks l).flatten = l := by
  induction l using bulkChunks.induct with
  | case1 => rw [bulkChunks]; rfl
  | case2 x xs ih =>
    rw [bulkChunks]
    simp only [List.flatten_cons, ih, List.take_append_drop]

theorem bulkChunks_length {α : Type} (l : List α) :
    (bulkChunks l).length = (l.length + 9) / 10 := by
  induction l using bulkChunks.induct with
  | case1 => rw [bulkChunks]; simp
  | case2 x xs ih =>
    rw [bulkChunks]
    simp only [MaxDiscordEmbed] at ih ⊢
    simp only [List.length_cons, ih, List.length_drop]
    omega

theorem bulkChunks_mem_le {α : Type} (c : List α) (l : List α) (hc : c ∈ bulkChunks l) :
    c.length ≤ 10 := by
  induction l using bulkChunks.induct with
  | case1 => simp [bulkChunks] at hc
  | case2 x xs ih =>
    rw [bulkChunks] at hc
    rcases List.mem_cons.mp hc with h | h
    · subst h
      exact List.length_take_le MaxDiscordEmbed (x :: xs)
    · exact ih h

theorem batchEmbeds_flatten (l : List discordEmbed) : (batchEmbeds l).flatten = l := by
  unfold batchEmbeds
  split
  · exact bulkChunks_flatten l
  · simp

theorem batchEmbeds_length (l : List discordEmbed) :
    (batchEmbeds l).length = if l.length = 0 then 1 else (l.length + 9) / 10 := by
  unfold batchEmbeds
  split
  · rename_i h
    rw [bulkChunks_length, if_neg]
    simp only [MaxDiscordEmbed] at h
    omega
  · rename_i h
    simp only [MaxDiscordEmbed, not_lt] at h
    by_cases h0 : l.length = 0
    · simp [h0]
    · rw [if_neg h0]
      simp only [List.length_singleton]
      omega

theorem batchEmbeds_mem_le (l : List discordEmbed) (c : List discordEmbed)
    (hc : c ∈ batchEmbeds l) : c.length ≤ 10 := by
  unfold batchEmbeds at hc
  split at hc
  · exact bulkChunks_mem_le c l hc
  · rename_i h
    simp only [MaxDiscordEmbed, not_lt] at h
    rcases List.mem_singleton.mp hc with rfl
    omega

theorem flatten_map_singleton {α : Type} (l : List α) :
    (l.map (fun a => [a])).flatten = l := by
  induction l with
  | nil => rfl
  | cons a t ih => simp [ih]

/-! ## Claim theorems -/

/-- Claim C9: the Severity Classifier returns grey for "debug", blue for
"info", orange for "warning", red for "critical", and red for any other
string including the empty string. -/
theorem severity_classifier_C9 :
    getSeverityColor "debug" = ColorGrey ∧
    getSeverityColor "info" = ColorBlue ∧
    getSeverityColor "warning" = ColorOrange ∧
    getSeverityColor "critical" = ColorRed ∧
    getSeverityColor "" = ColorRed ∧
    ∀ s : String, s ∉ (["debug", "info", "warning", "critical"] : List String) →
      getSeverityColor s = ColorRed := by
  refine ⟨rfl, rfl, rfl, rfl, rfl, ?_⟩
  intro s hs
  simp only [List.mem_cons, List.not_mem_nil, or_false, not_or] at hs
  obtain ⟨h1, h2, h3, h4⟩ := hs
  simp [getSeverityColor, h1, h2, h3, h4]

/-- Witness for C9 at the unrecognized severity "purple". -/
theorem severity_classifier_C9_witness :
    "purple" ∉ (["debug", "info", "warning", "critical"] : List String) ∧
    getSeverityColor "purple" = ColorRed :=
  ⟨by decide, severity_classifier_C9.2.2.2.2.2 "purple" (by decide)⟩

/-- Claim C1: for a group whose alerts render to K units, sendWebhook
produces ceil(K/10) messages when K is positive and exactly one message with
an empty unit sequence when K = 0; every message holds at most 10 units and
carries the identical group header, and concatenating the messages in order
reproduces the rendered sequence exactly (so each message is a contiguous
run, with no gaps or duplicates). -/
theorem batching_C1 (env : GoEnv) (post : discordOut → PostResult) (amo : alertManOut)
    (embeds : List discordEmbed) (r : SendResult)
    (hrender : renderAll env amo.alerts = some embeds)
    (hsend : sendWebhook env post amo = some r) :
    r.messages.length = (if embeds.length = 0 then 1 else (embeds.length + 9) / 10) ∧
    (∀ m ∈ r.messages, m.embeds.length ≤ 10 ∧ m.content = groupHeader amo) ∧
    (r.messages.map discordOut.embeds).flatten = embeds ∧
    (embeds.length = 0 → r.messages = [{ content := groupHeader amo, embeds := [] }]) := by
  unfold sendWebhook at hsend
  rw [hrender] at hsend
  obtain rfl : _ = r := Option.some.inj hsend
  refine ⟨?_, ?_, ?_, ?_⟩
  · simp only [List.length_map]
    exact batchEmbeds_length embeds
  · intro m hm
    simp only [List.mem_map] at hm
    obtain ⟨c, hc, rfl⟩ := hm
    exact ⟨batchEmbeds_mem_le embeds c hc, rfl⟩
  · have hmap : ((batchEmbeds embeds).map
        (fun c => ({ content := groupHeader amo, embeds := c } : discordOut))).map
          discordOut.embeds = batchEmbeds embeds := by
      rw [List.map_map]
      have hid : (discordOut.embeds ∘
          fun c => ({ content := groupHeader amo, embeds := c } : discordOut)) = id := by
        funext c
        rfl
      rw [hid, List.map_id]
    simp only [hmap]
    exact batchEmbeds_flatten embeds
  · intro h0
    have : embeds = [] := List.length_eq_zero.mp h0
    subst this
    simp [batchEmbeds, MaxDiscordEmbed]

/-- Witness for C1 on the one-alert group exGroup. -/
theorem batching_C1_witness :
    sendResC1.messages.length =
      (if ([embedC2] : List discordEmbed).length = 0 then 1
       else (([embedC2] : List discordEmbed).length + 9) / 10) ∧
    (sendResC1.messages.map discordOut.embeds).flatten = [embedC2] :=
  ⟨(batching_C1 testEnv postOkFn exGroup [embedC2] sendResC1 rfl rfl).1,
   (batching_C1 testEnv postOkFn exGroup [embedC2] sendResC1 rfl rfl).2.2.1⟩

theorem renderAlert_eq_some {env : GoEnv} {alert : alertManAlert} {u : discordEmbed}
    (hr : renderAlert env alert = some u) :
    ∃ startAt endAt, resolvedTime env alert.startsAt = some startAt ∧
      resolvedTime env alert.endsAt = some endAt ∧
      u = renderCore env alert startAt endAt := by
  unfold renderAlert at hr
  cases h1 : resolvedTime env alert.startsAt with
  | none => rw [h1] at hr; exact absurd hr (by simp)
  | some s =>
    cases h2 : resolvedTime env alert.endsAt with
    | none => rw [h1, h2] at hr; exact absurd hr (by simp)
    | some e =>
      rw [h1, h2] at hr
      exact ⟨s, e, rfl, rfl, (Option.some.inj hr).symm⟩

/-- Claim C2: every alert whose status is "resolved" renders with the green
color and display status "normal" (the title begins with the "[NORMAL] "
marker), irrespective of any severity label it carries. -/
theorem resolved_normal_C2 (env : GoEnv) (alert : alertManAlert) (u : discordEmbed)
    (hst : alert.status = "resolved")
    (hr : renderAlert env alert = some u) :
    displayStatus alert = "normal" ∧
    u.color = ColorGreen ∧
    u.title = "[NORMAL] " ++ alert.annotations.summary := by
  have hds : displayStatus alert = "normal" := by
    simp [displayStatus, hst]
  have hcol : statusColor alert = ColorGreen := by
    simp [statusColor, hst]
  obtain ⟨s, e, _, _, rfl⟩ := renderAlert_eq_some hr
  refine ⟨hds, hcol, ?_⟩
  show "[" ++ goToUpper (displayStatus alert) ++ "] " ++ alert.annotations.summary =
    "[NORMAL] " ++ alert.annotations.summary
  rw [hds]
  rfl

/-- Witness for C2 on the resolved alert alertC2 (which carries a severity
label "critical" that must be ignored). -/
theorem resolved_normal_C2_witness :
    displayStatus alertC2 = "normal" ∧
    embedC2.color = ColorGreen ∧
    embedC2.title = "[NORMAL] " ++ alertC2.annotations.summary :=
  resolved_normal_C2 testEnv alertC2 embedC2 rfl rfl

/-- Claim C10: a firing alert whose severity label reads exactly "normal" is
treated as the normal state: the title is the "[NORMAL] " marker plus the
summary and no auxiliary metric value line is appended, yet the color is the
classifier default red rather than green. -/
theorem firing_normal_severity_C10 (env : GoEnv) (alert : alertManAlert) (u : discordEmbed)
    (hst : alert.status = "firing")
    (hsev : List.lookup "severity" alert.labels = some "normal")
    (hr : renderAlert env alert = some u) :
    displayStatus alert = "normal" ∧
    u.title = "[NORMAL] " ++ alert.annotations.summary ∧
    labelLines env (displayStatus alert) alert.labels = (labelsFold env alert.labels).lines ∧
    u.color = ColorRed ∧
    ColorRed ≠ ColorGreen := by
  have hds : displayStatus alert = "normal" := by
    simp [displayStatus, hst, hsev]
  have hcol : statusColor alert = ColorRed := by
    rw [statusColor, if_pos hst, hds]
    rfl
  obtain ⟨s, e, _, _, rfl⟩ := renderAlert_eq_some hr
  refine ⟨hds, ?_, ?_, hcol, by decide⟩
  · show "[" ++ goToUpper (displayStatus alert) ++ "] " ++ alert.annotations.summary =
      "[NORMAL] " ++ alert.annotations.summary
    rw [hds]
    rfl
  · rw [hds]
    simp [labelLines]

/-- Witness for C10 on the firing alert alertC10 with severity "normal". -/
theorem firing_normal_severity_C10_witness :
    displayStatus alertC10 = "normal" ∧
    embedC10.title = "[NORMAL] " ++ alertC10.annotations.summary ∧
    labelLines testEnv (displayStatus alertC10) alertC10.labels =
      (labelsFold testEnv alertC10.labels).lines ∧
    embedC10.color = ColorRed ∧
    ColorRed ≠ ColorGreen :=
  firing_normal_severity_C10 testEnv alertC10 embedC10 rfl rfl rfl


theorem labelsStep_metricsValue (env : GoEnv) (acc : LabelsAcc) (kv : String × String)
    (h : kv.1 ≠ "metrics_value") :
    (labelsStep env acc kv).metricsValue = acc.metricsValue := by
  unfold labelsStep
  split_ifs <;> simp_all

theorem labelsStep_metricsConv (env : GoEnv) (acc : LabelsAcc) (kv : String × String)
    (h : kv.1 ≠ "metrics_conv") :
    (labelsStep env acc kv).metricsConv = acc.metricsConv := by
  unfold labelsStep
  split_ifs <;> simp_all

theorem foldl_metricsValue_not_mem (env : GoEnv) :
    ∀ (ls : List (String × String)) (acc : LabelsAcc),
      "metrics_value" ∉ ls.map Prod.fst →
      (ls.foldl (labelsStep env) acc).metricsValue = acc.metricsValue := by
  intro ls
  induction ls with
  | nil => intro acc _; rfl
  | cons kv rest ih =>
    intro acc hmem
    simp only [List.map_cons, List.mem_cons, not_or] at hmem
    rw [List.foldl_cons, ih _ (by simpa using hmem.2),
      labelsStep_metricsValue env acc kv (fun he => hmem.1 he.symm)]

theorem foldl_metricsConv_not_mem (env : GoEnv) :
    ∀ (ls : List (String × String)) (acc : LabelsAcc),
      "metrics_conv" ∉ ls.map Prod.fst →
      (ls.foldl (labelsStep env) acc).metricsConv = acc.metricsConv := by
  intro ls
  induction ls with
  | nil => intro acc _; rfl
  | cons kv rest ih =>
    intro acc hmem
    simp only [List.map_cons, List.mem_cons, not_or] at hmem
    rw [List.foldl_cons, ih _ (by simpa using hmem.2),
      labelsStep_metricsConv env acc kv (fun he => hmem.1 he.symm)]

theorem foldl_metricsValue_lookup (env : GoEnv) :
    ∀ (ls : List (String × String)) (acc : LabelsAcc),
      (ls.map Prod.fst).Nodup →
      (ls.foldl (labelsStep env) acc).metricsValue =
        (match List.lookup "metrics_value" ls with
         | some v => (env.parseFloat v).getD 0
         | none => acc.metricsValue) := by
  intro ls
  induction ls with
  | nil => intro acc _; rfl
  | cons kv rest ih =>
    obtain ⟨k, v⟩ := kv
    intro acc hnd
    simp only [List.map_cons, List.nodup_cons] at hnd
    by_cases hk : k = "metrics_value"
    · have hSW : goStartsWith k "metrics_" = true := by rw [hk]; decide
      have hstep : (labelsStep env acc (k, v)).metricsValue = (env.parseFloat v).getD 0 := by
        unfold labelsStep
        rw [if_pos hSW, if_pos hk]
      rw [List.foldl_cons, foldl_metricsValue_not_mem env rest _ (hk ▸ hnd.1), hstep]
      have hbeq : ("metrics_value" == k) = true := by rw [hk]; exact beq_self_eq_true _
      simp only [List.lookup, hbeq]
    · rw [List.foldl_cons, ih _ hnd.2,
        labelsStep_metricsValue env acc (k, v) hk]
      have hbeq : ("metrics_value" == k) = false := beq_eq_false_iff_ne.mpr (Ne.symm hk)
      simp only [List.lookup, hbeq]

theorem foldl_metricsConv_lookup (env : GoEnv) :
    ∀ (ls : List (String × String)) (acc : LabelsAcc),
      (ls.map Prod.fst).Nodup →
      (ls.foldl (labelsStep env) acc).metricsConv =
        (match List.lookup "metrics_conv" ls with
         | some v => v
         | none => acc.metricsConv) := by
  intro ls
  induction ls with
  | nil => intro acc _; rfl
  | cons kv rest ih =>
    obtain ⟨k, v⟩ := kv
    intro acc hnd
    simp only [List.map_cons, List.nodup_cons] at hnd
    by_cases hk : k = "metrics_conv"
    · have hSW : goStartsWith k "metrics_" = true := by rw [hk]; decide
      have hstep : (labelsStep env acc (k, v)).metricsConv = v := by
        unfold labelsStep
        rw [if_pos hSW, if_neg (by simp [hk]), if_pos hk]
      rw [List.foldl_cons, foldl_metricsConv_not_mem env rest _ (hk ▸ hnd.1), hstep]
      have hbeq : ("metrics_conv" == k) = true := by rw [hk]; exact beq_self_eq_true _
      simp only [List.lookup, hbeq]
    · rw [List.foldl_cons, ih _ hnd.2,
        labelsStep_metricsConv env acc (k, v) hk]
      have hbeq : ("metrics_conv" == k) = false := beq_eq_false_iff_ne.mpr (Ne.symm hk)
      simp only [List.lookup, hbeq]

theorem foldl_lines_append (env : GoEnv) :
    ∀ (ls : List (String × String)) (acc : LabelsAcc),
      (ls.foldl (labelsStep env) acc).lines =
        acc.lines ++ (ls.filter ordinaryLabel).map labelLineOf := by
  intro ls
  induction ls with
  | nil => intro acc; simp
  | cons kv rest ih =>
    intro acc
    rw [List.foldl_cons, ih]
    by_cases h1 : goStartsWith kv.1 "metrics_" = true
    · have hstep : (labelsStep env acc kv).lines = acc.lines := by
        unfold labelsStep
        rw [if_pos h1]
        split_ifs <;> rfl
      have hord : ordinaryLabel kv = false := by
        simp [ordinaryLabel, h1]
      rw [hstep, List.filter_cons, if_neg (by simp [hord])]
    · have h1f : goStartsWith kv.1 "metrics_" = false := by
        simp only [Bool.not_eq_true] at h1
        exact h1
      by_cases h2 : kv.1 = "value"
      · have hstep : (labelsStep env acc kv).lines = acc.lines := by
          unfold labelsStep
          rw [if_neg (by simp [h1f]), if_pos h2]
        have hord : ordinaryLabel kv = false := by
          simp [ordinaryLabel, h1f, h2]
        rw [hstep, List.filter_cons, if_neg (by simp [hord])]
      · have hstep : (labelsStep env acc kv).lines = acc.lines ++ [labelLineOf kv] := by
          unfold labelsStep
          rw [if_neg (by simp [h1f]), if_neg h2]
          rfl
        have hord : ordinaryLabel kv = true := by
          simp [ordinaryLabel, h1f, beq_eq_false_iff_ne.mpr h2]
        rw [hstep, List.filter_cons, if_pos hord]
        simp

/-- Claim C4: label keys with the "metrics_" marker never render as ordinary
label lines (metrics_value is parsed as a float defaulting to 0.0 on parse
failure and metrics_conv is captured as the conversion tag), the key exactly
"value" is dropped, every remaining key renders as a bulleted line, and a
display status other than "normal" appends exactly one extra bulleted line
rendering the auxiliary metric through the Value Formatter (with defaults 0.0
and the empty tag when the metrics labels are absent), while a "normal"
display status appends nothing. -/
theorem labels_partition_C4 (env : GoEnv) (ls : List (String × String)) (status : String)
    (hnodup : (ls.map Prod.fst).Nodup) :
    (labelsFold env ls).lines = (ls.filter ordinaryLabel).map labelLineOf ∧
    (labelsFold env ls).metricsValue =
      ((List.lookup "metrics_value" ls).map (fun v => (env.parseFloat v).getD 0)).getD 0 ∧
    (labelsFold env ls).metricsConv = (List.lookup "metrics_conv" ls).getD "" ∧
    (status ≠ "normal" →
      labelLines env status ls =
        (labelsFold env ls).lines ++
          [": - **_value:_** " ++
            valueConv (labelsFold env ls).metricsValue (labelsFold env ls).metricsConv]) ∧
    labelLines env "normal" ls = (labelsFold env ls).lines := by
  refine ⟨?_, ?_, ?_, ?_, ?_⟩
  · rw [labelsFold, foldl_lines_append]
    rfl
  · rw [labelsFold, foldl_metricsValue_lookup env ls _ hnodup]
    cases List.lookup "metrics_value" ls <;> rfl
  · rw [labelsFold, foldl_metricsConv_lookup env ls _ hnodup]
    cases List.lookup "metrics_conv" ls <;> rfl
  · intro hs
    rw [labelLines, if_pos hs]
  · rw [labelLines, if_neg (by simp)]

/-- Witness for C4 on the concrete label map labelsC4, with the abnormal
display status "critical". -/
theorem labels_partition_C4_witness :
    (labelsFold testEnv labelsC4).lines = (labelsC4.filter ordinaryLabel).map labelLineOf ∧
    labelLines testEnv "critical" labelsC4 =
      (labelsFold testEnv labelsC4).lines ++
        [": - **_value:_** " ++
          valueConv (labelsFold testEnv labelsC4).metricsValue
            (labelsFold testEnv labelsC4).metricsConv] :=
  ⟨(labels_partition_C4 testEnv labelsC4 "critical" (by decide)).1,
   (labels_partition_C4 testEnv labelsC4 "critical" (by decide)).2.2.2.1 (by decide)⟩

/-- Claim C3: the rendered body is assembled in fixed order: event time line
(using the later of start and end), labels block, separator, the description
block unconditionally, and only when the end instant is chronologically after
the start instant a further separator followed by a duration line (end minus
start) and explicit start and end timestamp lines. -/
theorem body_assembly_C3 (env : GoEnv) (alert : alertManAlert) (u : discordEmbed)
    (startAt endAt : GoTime)
    (hr : renderAlert env alert = some u)
    (hs : resolvedTime env alert.startsAt = some startAt)
    (he : resolvedTime env alert.endsAt = some endAt) :
    u.description = bodyAssemblySpec env alert startAt endAt := by
  obtain ⟨s0, e0, hs0, he0, rfl⟩ := renderAlert_eq_some hr
  obtain rfl : startAt = s0 := Option.some.inj (hs.symm.trans hs0)
  obtain rfl : endAt = e0 := Option.some.inj (he.symm.trans he0)
  show String.intercalate "\n" _ = _
  rw [bodyAssemblySpec]
  by_cases hgt : endAt.sec > startAt.sec
  · simp only [if_pos hgt, eventTimeLine, labelsBlockOf, descBlockOf, durationLineOf,
      startLineOf, endLineOf]
    simp
  · simp only [if_neg hgt, eventTimeLine, labelsBlockOf, descBlockOf]
    simp [hgt]

/-- Witness for C3 on alertC2 under testEnv, where both timestamps resolve to
the zero time in UTC. -/
theorem body_assembly_C3_witness :
    embedC2.description = bodyAssemblySpec testEnv alertC2 zeroGoTime zeroGoTime :=
  body_assembly_C3 testEnv alertC2 embedC2 zeroGoTime zeroGoTime rfl rfl rfl

/-- Claim C5 (amended): a start or end timestamp string that fails strict
parsing degrades to the zero timestamp without aborting rendering, and both
timestamps are converted into the display timezone resolved from the
environment timezone name at formatting time; an empty timezone name resolves
to UTC (not to the local system timezone), and rendering completes exactly
when the timezone name resolves — a name absent from the zone database yields
a nil location, on which the conversion panics. -/
theorem timezone_resolution_C5 (env : GoEnv) (alert : alertManAlert) (loc : String)
    (hloc : loadLocation env.tzdb env.tz = some loc) :
    (renderAlert env alert).isSome = true ∧
    (∀ s, env.parseRFC3339 s = none →
      resolvedTime env s = some { sec := zeroGoTime.sec, locName := loc }) ∧
    (∀ s t, resolvedTime env s = some t → t.locName = loc) ∧
    (∀ db : List String, loadLocation db "" = some "UTC") := by
  refine ⟨?_, ?_, ?_, ?_⟩
  · simp [renderAlert, resolvedTime, timeIn, hloc]
  · intro s hp
    simp [resolvedTime, timeIn, hloc, hp, zeroGoTime]
  · intro s t ht
    rw [resolvedTime, hloc] at ht
    obtain rfl := Option.some.inj ht
    rfl
  · intro db
    simp [loadLocation]

/-- Witness for C5: under testEnv the empty TZ name resolves to UTC, a
non-parsing timestamp string resolves to the zero time carrying that zone,
and rendering completes. -/
theorem timezone_resolution_C5_witness :
    (renderAlert testEnv alertC2).isSome = true ∧
    resolvedTime testEnv "garbage" = some { sec := zeroGoTime.sec, locName := "UTC" } :=
  ⟨(timezone_resolution_C5 testEnv alertC2 "UTC" rfl).1,
   (timezone_resolution_C5 testEnv alertC2 "UTC" rfl).2.1 "garbage" rfl⟩

/-- Counterexample for C5 as stated: the claim says an empty or invalid
timezone name falls back to the local system timezone and that rendering
completes for every (timestamp string, timezone name) pair; with the TZ name
"Mars/Phobos" absent from the zone database the location fails to load and
rendering of alertC2 panics (returns none) instead of completing. -/
theorem timezone_resolution_C5_counterexample :
    loadLocation badTzEnv.tzdb badTzEnv.tz = none ∧
    renderAlert badTzEnv alertC2 = none := by
  constructor
  · decide
  · rfl

/-- Claim C7: a transport-level delivery failure is logged and fireMessageOut
returns after its single POST attempt — it never retries (exactly one attempt
per call) and has no error outcome to propagate — and sendWebhook attempts
every message of the batch exactly once, in order, whatever the delivery
oracle answers, so a failure on one message never prevents the next. -/
theorem delivery_best_effort_C7 :
    (∀ (post : discordOut → PostResult) (msg : discordOut),
      (fireMessageOut post msg).posted = [msg]) ∧
    (∀ (post : discordOut → PostResult) (msg : discordOut) (e : String),
      post msg = PostResult.transportError e →
      (fireMessageOut post msg).logs = ["Send discord error -: " ++ e]) ∧
    (∀ (env : GoEnv) (post : discordOut → PostResult) (amo : alertManOut) (r : SendResult),
      sendWebhook env post amo = some r → r.posted = r.messages) := by
  refine ⟨fun post msg => rfl, ?_, ?_⟩
  · intro post msg e h
    simp [fireMessageOut, h]
  · intro env post amo r h
    unfold sendWebhook at h
    cases hre : renderAll env amo.alerts with
    | none => rw [hre] at h; exact absurd h (by simp)
    | some embeds =>
      rw [hre] at h
      obtain rfl : _ = r := Option.some.inj h
      show ((((batchEmbeds embeds).map _).map (fireMessageOut post)).map FireOut.posted).flatten = _
      rw [List.map_map]
      have hcomp : (FireOut.posted ∘ fireMessageOut post) = fun m => [m] := by
        funext m
        rfl
      rw [hcomp, flatten_map_singleton]

/-- Witness for C7: a failing oracle is logged after its single attempt, and
the full batch of exGroup is attempted in order. -/
theorem delivery_best_effort_C7_witness :
    (fireMessageOut postFailFn msgW).posted = [msgW] ∧
    (fireMessageOut postFailFn msgW).logs = ["Send discord error -: " ++ "refused"] ∧
    sendResC1.posted = sendResC1.messages :=
  ⟨delivery_best_effort_C7.1 postFailFn msgW,
   delivery_best_effort_C7.2.1 postFailFn msgW "refused" rfl,
   delivery_best_effort_C7.2.2 testEnv postOkFn exGroup sendResC1 rfl⟩

/-- Claim C6 (amended): when a request body fails decoding and is not
recognized as the foreign alert-source shape, the handler delivers nothing,
responds with the implicit success, and logs one warning holding the first
1023 units of the body followed by an ellipsis marker when the body is longer
than 1024 units, and the whole body otherwise. -/
theorem unparseable_log_C6 (env : GoEnv) (decode : String → Option alertManOut)
    (isRaw : String → Bool) (post : discordOut → PostResult) (b : String)
    (hdec : decode b = none) (hraw : isRaw b = false) :
    (handleRequest env decode isRaw post b).posted = [] ∧
    (handleRequest env decode isRaw post b).response = some (200, "") ∧
    (handleRequest env decode isRaw post b).logs =
      [if b.length > 1024 then
         "Failed to unpack inbound alert request - " ++ b.take 1023 ++ "..."
       else "Failed to unpack inbound alert request - " ++ b] := by
  unfold handleRequest
  rw [hdec, hraw]
  exact ⟨by simp, by simp, by simp [unpackFailLog]⟩

/-- Witness for C6 on the short body "oops". -/
theorem unparseable_log_C6_witness :
    (handleRequest testEnv decodeNoneFn isRawFalseFn postFailFn "oops").posted = [] ∧
    (handleRequest testEnv decodeNoneFn isRawFalseFn postFailFn "oops").logs =
      [if ("oops" : String).length > 1024 then
         "Failed to unpack inbound alert request - " ++ ("oops" : String).take 1023 ++ "..."
       else "Failed to unpack inbound alert request - " ++ "oops"] :=
  ⟨(unparseable_log_C6 testEnv decodeNoneFn isRawFalseFn postFailFn "oops" rfl rfl).1,
   (unparseable_log_C6 testEnv decodeNoneFn isRawFalseFn postFailFn "oops" rfl rfl).2.2⟩

/-- Counterexample for C6 as stated: the claim says the first 1024 bytes are
logged, but on a 1025-unit body the logged excerpt is the first 1023 units
(the code slices the body up to index 1023), which differs from the first
1024 units of the body. -/
theorem unparseable_log_C6_counterexample :
    (handleRequest testEnv decodeNoneFn isRawFalseFn postFailFn bodyLong).logs =
      ["Failed to unpack inbound alert request - " ++ excerpt1023 ++ "..."] ∧
    excerpt1023.length = 1023 ∧
    bodyLong.take 1024 ≠ excerpt1023 := by
  have hlen1025 : bodyLong.length = 1025 := by
    show (List.replicate 1025 'a').length = 1025
    exact List.length_replicate 1025 'a'
  have htake : bodyLong.take 1023 = excerpt1023 := by
    rw [String.take_eq]
    show String.mk ((List.replicate 1025 'a').take 1023) = String.mk (List.replicate 1023 'a')
    rw [List.take_replicate]
    norm_num
  have hex : excerpt1023.length = 1023 := by
    show (List.replicate 1023 'a').length = 1023
    exact List.length_replicate 1023 'a'
  refine ⟨?_, hex, ?_⟩
  · have h1 : (handleRequest testEnv decodeNoneFn isRawFalseFn postFailFn bodyLong).logs
        = [unpackFailLog bodyLong] := rfl
    rw [h1, unpackFailLog, if_pos (by rw [hlen1025]; norm_num), htake]
  · intro he
    have h2 : (bodyLong.take 1024).length = 1024 := by
      rw [String.take_eq]
      show ((List.replicate 1025 'a').take 1024).length = 1024
      rw [List.take_replicate, List.length_replicate]
      norm_num
    rw [he, hex] at h2
    norm_num at h2

theorem renderAlert_isSome (env : GoEnv) (alert : alertManAlert) (loc : String)
    (hloc : loadLocation env.tzdb env.tz = some loc) :
    (renderAlert env alert).isSome = true := by
  simp [renderAlert, resolvedTime, timeIn, hloc]

theorem renderAll_isSome (env : GoEnv) (loc : String)
    (hloc : loadLocation env.tzdb env.tz = some loc) :
    ∀ ls : List alertManAlert, (renderAll env ls).isSome = true := by
  intro ls
  induction ls with
  | nil => rfl
  | cons a rest ih =>
    have h1 := renderAlert_isSome env a loc hloc
    cases ha : renderAlert env a with
    | none => rw [ha] at h1; exact absurd h1 (by simp)
    | some e =>
      cases hrest : renderAll env rest with
      | none => rw [hrest] at ih; exact absurd ih (by simp)
      | some es => simp [renderAll, ha, hrest]

theorem sendWebhook_isSome (env : GoEnv) (post : discordOut → PostResult)
    (amo : alertManOut) (loc : String)
    (hloc : loadLocation env.tzdb env.tz = some loc) :
    (sendWebhook env post amo).isSome = true := by
  have h := renderAll_isSome env loc hloc amo.alerts
  cases hre : renderAll env amo.alerts with
  | none => rw [hre] at h; exact absurd h (by simp)
  | some embeds =>
    unfold sendWebhook
    rw [hre]
    rfl

/-- Claim C8 (amended): the handler never writes any HTTP status, so every
run either produces the implicit 200 with an empty body or, when rendering
panics, no response at all; and on every decode-failure path, as well as on
the decode-success path whenever the configured timezone name resolves to a
location, the response is exactly the implicit 200 with an empty body. -/
theorem handler_response_C8 :
    (∀ (env : GoEnv) (decode : String → Option alertManOut) (isRaw : String → Bool)
       (post : discordOut → PostResult) (b : String),
      (handleRequest env decode isRaw post b).response = some (200, "") ∨
      (handleRequest env decode isRaw post b).response = none) ∧
    (∀ (env : GoEnv) (decode : String → Option alertManOut) (isRaw : String → Bool)
       (post : discordOut → PostResult) (b : String),
      ((loadLocation env.tzdb env.tz).isSome = true ∨ decode b = none) →
      (handleRequest env decode isRaw post b).response = some (200, "")) := by
  constructor
  · intro env decode isRaw post b
    unfold handleRequest
    cases hd : decode b with
    | none =>
      cases hr : isRaw b <;> simp [hr]
    | some amo =>
      cases hw : sendWebhook env post amo with
      | none => right; simp [hw]
      | some r => left; simp [hw]
  · intro env decode isRaw post b h
    unfold handleRequest
    cases hd : decode b with
    | none =>
      cases hr : isRaw b <;> simp [hr]
    | some amo =>
      rcases h with h | h
      · obtain ⟨loc, hloc⟩ := Option.isSome_iff_exists.mp h
        have hsw := sendWebhook_isSome env post amo loc hloc
        cases hw : sendWebhook env post amo with
        | none => rw [hw] at hsw; exact absurd hsw (by simp)
        | some r => simp [hw]
      · rw [hd] at h
        exact absurd h (by simp)

/-- Witness for C8: with an empty TZ name (which resolves to UTC) a
successfully decoded group is answered with the implicit 200 and empty
body. -/
theorem handler_response_C8_witness :
    (handleRequest testEnv decodeExGroupFn isRawFalseFn postOkFn "ignored").response =
      some (200, "") :=
  handler_response_C8.2 testEnv decodeExGroupFn isRawFalseFn postOkFn "ignored" (Or.inl rfl)

/-- Counterexample for C8 as stated: the claim says every inbound request is
answered with HTTP 200 and an empty body, but on the decode-success path with
the TZ name "Mars/Phobos" absent from the zone database the rendering of the
group panics and no response is written at all. -/
theorem handler_response_C8_counterexample :
    (handleRequest badTzEnv decodeExGroupFn isRawFalseFn postFailFn "ignored").response =
      none := rfl
